import Mathlib

/-!
Shallow embedding of the AlgoTrade-Bot decision core
(`src/trading_bot/`): models, risk management, exit manager, strategy
engine, market-trend classifier and the backtest engine, translated
from the Python sources.  Floats are modelled as rationals, wall-clock
times of day as minutes since midnight, dataframes as lists of rows.
Python calls that raise are modelled with `Except PyErr`.
-/

/-- Python exceptions relevant to this development. -/
inductive PyErr where
  | typeError
  | zeroDivisionError
deriving DecidableEq, Repr

/-- models.py: `Side` (BUY / SELL). -/
inductive Side where
  | BUY
  | SELL
deriving DecidableEq, Repr

/-- models.py: `SetupType`. -/
inductive SetupType where
  | REJECTION
  | PULLBACK
deriving DecidableEq, Repr

/-- models.py: `TradeSignal` dataclass.  `score` and `relative_volume`
carry the dataclass defaults `0` and `0.0`. -/
structure TradeSignal where
  symbol : String
  side : Side
  setup : SetupType
  entry : ℚ
  stop_loss : ℚ
  target_1 : ℚ
  target_2 : Option ℚ
  reason : String
  created_at : ℕ
  detailed_reason : String := ""
  score : ℤ := 0
  relative_volume : ℚ := 0
deriving DecidableEq, Repr

/-- models.py: `OpenPosition` dataclass.  `opened_at` is a minute
timestamp when present. -/
structure OpenPosition where
  symbol : String
  side : Side
  quantity : ℕ
  setup : SetupType
  entry : ℚ
  stop_loss : ℚ
  target_1 : ℚ
  target_2 : Option ℚ
  target_1_hit : Bool := false
  opened_at : Option (ℕ × ℕ) := none
deriving DecidableEq, Repr

/-- config.py: `TradingConfig`.  Times of day are minutes since
midnight (9:20 = 560, 11:30 = 690, 15:20 = 920). -/
structure TradingConfig where
  scan_start : ℕ := 560
  last_entry : ℕ := 690
  force_exit : ℕ := 920
  min_sss_score : ℤ := 4
  excluded_symbols : List String := ["HDFCBANK", "BANKBARODA"]
  atr_period : ℕ := 14
  atr_stop_multiplier : ℚ := 1.5
  max_trades_per_stock_per_day : ℕ := 1
  max_total_trades_per_day : ℕ := 2
  risk_per_trade_pct : ℚ := 0.01
  daily_max_loss_pct : ℚ := 0.02
  max_trade_capital : ℚ := 5000
  risk_reward_ratio : ℚ := 2
  ema_fast_period : ℕ := 9
  ema_slow_period : ℕ := 20
  rsi_period : ℕ := 14
  impulse_volume_multiplier : ℚ := 1.5
  large_candle_body_multiplier : ℚ := 1.2
  max_order_retries : ℕ := 1
  kill_switch_api_failures : ℕ := 2

/-- The default `TradingConfig()`. -/
def defaultConfig : TradingConfig := {}

/-- risk_management.py: `DailyRiskState` dataclass.  The
`symbol_trade_count` dict is modelled as a total function that is `0`
outside its keys (`dict.get(symbol, 0)`). -/
structure DailyRiskState where
  capital : ℚ
  max_daily_loss_pct : ℚ
  realized_pnl : ℚ := 0
  total_trades : ℕ := 0
  symbol_trade_count : String → ℕ := fun _ => 0

/-- risk_management.py: `max_daily_loss_amount`. -/
def DailyRiskState.max_daily_loss_amount (s : DailyRiskState) : ℚ :=
  s.capital * s.max_daily_loss_pct

/-- risk_management.py: `can_trade` — reads the state, mutates
nothing. -/
def DailyRiskState.can_trade (s : DailyRiskState) (symbol : String)
    (max_trades_total max_trades_per_stock : ℕ) : Bool :=
  if s.realized_pnl ≤ -s.max_daily_loss_amount then false
  else if max_trades_total ≤ s.total_trades then false
  else if max_trades_per_stock ≤ s.symbol_trade_count symbol then false
  else true

/-- risk_management.py: `register_trade` (the debug print is
observational only). -/
def DailyRiskState.register_trade (s : DailyRiskState) (symbol : String) :
    DailyRiskState :=
  { s with
    total_trades := s.total_trades + 1
    symbol_trade_count := fun x =>
      if x = symbol then s.symbol_trade_count symbol + 1
      else s.symbol_trade_count x }

/-- risk_management.py: `register_exit`. -/
def DailyRiskState.register_exit (s : DailyRiskState) (pnl : ℚ) :
    DailyRiskState :=
  { s with realized_pnl := s.realized_pnl + pnl }

/-- risk_management.py: `reset`. -/
def DailyRiskState.reset (s : DailyRiskState) : DailyRiskState :=
  { s with realized_pnl := 0, total_trades := 0,
           symbol_trade_count := fun _ => 0 }

/-- risk_management.py: `position_size`.  `int(x // y)` on Python
floats is the mathematical floor; float floor division by zero raises
`ZeroDivisionError`, which happens exactly when `entry = 0` and the
stop distance is positive (the `sl_distance <= 0` guard returns first
otherwise). -/
def position_size (capital max_trade_capital risk_pct entry stop_loss : ℚ) :
    Except PyErr ℤ :=
  let risk_amount := capital * risk_pct
  let sl_distance := |entry - stop_loss|
  if sl_distance ≤ 0 then .ok 0
  else if entry = 0 then .error .zeroDivisionError
  else .ok (max (min ⌊risk_amount / sl_distance⌋
                     ⌊max_trade_capital / entry⌋) 0)

/-- A bar row: raw OHLCV plus the indicator columns produced by
indicators.py `add_indicators`.  Rolling 20-bar statistics are `none`
before 20 bars of history (pandas NaN with an explicit `pd.notna`
check at every use site). -/
structure Bar where
  open_price : ℚ := 0
  high : ℚ := 0
  low : ℚ := 0
  close : ℚ := 0
  volume : ℚ := 0
  vwap : ℚ := 0
  pp : ℚ := 0
  r1 : ℚ := 0
  r2 : ℚ := 0
  s1 : ℚ := 0
  s2 : ℚ := 0
  ema9 : ℚ := 0
  ema20 : ℚ := 0
  rsi : ℚ := 0
  body : ℚ := 0
  avg_vol_20 : Option ℚ := none
  avg_range_20 : Option ℚ := none
  avg_body_20 : Option ℚ := none
deriving DecidableEq, Repr

instance : Inhabited Bar := ⟨{}⟩

/-- An exit order as recorded by the executor's `place_exit`
call: the reason string, the optional explicit exit price, and the
optional explicit quantity (absent for full exits). -/
structure ExitOrder where
  reason : String
  price : Option ℚ := none
  qty : Option ℕ := none
deriving DecidableEq, Repr

/-- exit_manager.py: `_check_target_1`. -/
def check_target_1 (p : OpenPosition) (c : Bar) : Bool :=
  match p.side with
  | .BUY => decide (p.target_1 ≤ c.high)
  | .SELL => decide (c.low ≤ p.target_1)

/-- exit_manager.py: `_execute_partial_exit`.  `int(quantity / 2)` on
a nonnegative int is Nat division by 2.  The source's reason string
carries a human-readable suffix interpolating `target_1`
("Target 1 (...) hit. Booking 50%."), which no consumer inspects
beyond the leading token; we keep the leading token. -/
def execT1Exit (p : OpenPosition) : OpenPosition × List ExitOrder :=
  let exit_qty := p.quantity / 2
  if 0 < exit_qty then
    ({ p with quantity := p.quantity - exit_qty, target_1_hit := true,
              stop_loss := p.entry },
     [{ reason := "partial_profit_pivot_hit", qty := some exit_qty }])
  else
    ({ p with target_1_hit := true, stop_loss := p.entry }, [])

/-- exit_manager.py: `_check_stop_loss`. -/
def check_stop_loss (p : OpenPosition) (c : Bar) : Bool :=
  match p.side with
  | .BUY => decide (c.low ≤ p.stop_loss)
  | .SELL => decide (p.stop_loss ≤ c.high)

/-- exit_manager.py: `_check_trailing_exit`.  `candle.get("ema9")`
followed by `if not ema9` treats a zero (Python-falsy) fast-EMA as "no
trail condition"; a missing column is the same no-trail case and is
subsumed by the zero value in this embedding. -/
def check_trailing_exit (p : OpenPosition) (c : Bar) : Bool :=
  if c.ema9 = 0 then false
  else
    match p.side with
    | .BUY => decide (c.close < c.ema9)
    | .SELL => decide (c.ema9 < c.close)

/-- exit_manager.py: `_check_eod_exit`.  `if not all([vwap, ema9,
ema20])` exits for safety when any of the three is Python-falsy. -/
def check_eod_exit (p : OpenPosition) (c : Bar) : Bool :=
  if c.vwap = 0 ∨ c.ema9 = 0 ∨ c.ema20 = 0 then true
  else
    match p.side with
    | .BUY => !(decide (c.vwap < c.close) && decide (c.ema20 < c.ema9))
    | .SELL => !(decide (c.close < c.vwap) && decide (c.ema9 < c.ema20))

/-- exit_manager.py: layers 2-4 of `manage_exit` (stop loss, trailing,
smart EOD), shared by the two paths out of the partial-booking layer.
`os` is the order list accumulated so far in this call. -/
def manage_exit_tail (p : OpenPosition) (c : Bar) (now : ℕ)
    (os : List ExitOrder) : Bool × OpenPosition × List ExitOrder :=
  if check_stop_loss p c then
    (true, p, os ++ [{ reason := "stop_loss_hit" }])
  else if p.target_1_hit && check_trailing_exit p c then
    (true, p, os ++ [{ reason := "ema_9_trailing_stop" }])
  else if 900 ≤ now ∧ check_eod_exit p c then
    (true, p, os ++ [{ reason := "trend_invalidated_at_1500" }])
  else (false, p, os)

/-- exit_manager.py: `manage_exit`.  Returns (fully closed?, the
position after in-place mutation, the exit orders placed with the
executor during the call), with `now` a minute-of-day. -/
def manage_exit (cfg : TradingConfig) (p : OpenPosition) (c : Bar)
    (now : ℕ) : Bool × OpenPosition × List ExitOrder :=
  if cfg.force_exit ≤ now then
    (true, p, [{ reason := "force_square_off_1520" }])
  else if !p.target_1_hit && check_target_1 p c then
    let r := execT1Exit p
    if r.1.quantity = 0 then (true, r.1, r.2)
    else manage_exit_tail r.1 c now r.2
  else manage_exit_tail p c now []

/-- execution.py: `evaluate_exit`.  Returns ((should_exit, reason),
the position after in-place mutation). -/
def evaluate_exit (p : OpenPosition) (c : Bar) (now : ℕ)
    (force_exit_time : ℕ) : (Bool × String) × OpenPosition :=
  if force_exit_time ≤ now then ((true, "force_square_off_1520"), p)
  else
    match p.side with
    | .BUY =>
      if c.low ≤ p.stop_loss then ((true, "stop_loss"), p)
      else
        let p1 := if !p.target_1_hit && decide (p.target_1 ≤ c.high) then
            { p with target_1_hit := true, stop_loss := p.entry }
          else p
        match p1.target_2 with
        | some t2 =>
          if p1.target_1_hit && decide (t2 ≤ c.high) then
            ((true, "target_2"), p1)
          else ((false, "hold"), p1)
        | none => ((false, "hold"), p1)
    | .SELL =>
      if p.stop_loss ≤ c.high then ((true, "stop_loss"), p)
      else
        let p1 := if !p.target_1_hit && decide (c.low ≤ p.target_1) then
            { p with target_1_hit := true, stop_loss := p.entry }
          else p
        match p1.target_2 with
        | some t2 =>
          if p1.target_1_hit && decide (c.low ≤ t2) then
            ((true, "target_2"), p1)
          else ((false, "hold"), p1)
        | none => ((false, "hold"), p1)

/-- market_trend.py: `IndexState`. -/
inductive IndexState where
  | BULLISH
  | BEARISH
  | NEUTRAL
deriving DecidableEq, Repr

/-- pandas `ewm(span=n, adjust=False).mean()` continued from a seed
value: `y_t = (1-α)·y_{t-1} + α·x_t` with `α = 2/(n+1)`. -/
def emaFrom (α : ℚ) (prev : ℚ) : List ℚ → List ℚ
  | [] => []
  | x :: rest =>
    let y := (1 - α) * prev + α * x
    y :: emaFrom α y rest

/-- pandas `ewm(span=n, adjust=False).mean()` over a series: seeded
with the first element. -/
def emaSpan (n : ℕ) : List ℚ → List ℚ
  | [] => []
  | x :: rest => x :: emaFrom (2 / (n + 1)) x rest

/-- The dataframe consumed by market_trend.py `analyze_index_trend`:
a close series, plus the `ema20` / `ema50` columns when already
present (the function computes them otherwise). -/
structure IndexDf where
  close : List ℚ
  ema20 : Option (List ℚ) := none
  ema50 : Option (List ℚ) := none

/-- market_trend.py: `analyze_index_trend`.  `df.empty or len(df) <
50` collapses to a length test; missing `ema20` / `ema50` columns are
computed with spans 20 and 50; the decision reads the last row. -/
def analyze_index_trend (df : IndexDf) : IndexState :=
  if df.close.length < 50 then .NEUTRAL
  else
    let e20 := (df.ema20.getD (emaSpan 20 df.close)).getLastD 0
    let e50 := (df.ema50.getD (emaSpan 50 df.close)).getLastD 0
    let price := df.close.getLastD 0
    if e50 < price ∧ e50 < e20 then .BULLISH
    else if price < e50 ∧ e20 < e50 then .BEARISH
    else .NEUTRAL

/-- strategy.py: the `bearish` trend condition of `evaluate`. -/
def bearishTrend (c : Bar) : Bool :=
  decide (c.close < c.vwap) && decide (c.ema9 < c.ema20) &&
    decide (c.rsi < 45)

/-- strategy.py: the `bullish` trend condition of `evaluate`. -/
def bullishTrend (c : Bar) : Bool :=
  decide (c.vwap < c.close) && decide (c.ema20 < c.ema9) &&
    decide (55 < c.rsi)

/-- strategy.py: `_touches_resistance`. -/
def touches_resistance (c : Bar) (levels : List ℚ) : Bool :=
  levels.any fun l => decide (l ≤ c.high)

/-- strategy.py: `_touches_support`. -/
def touches_support (c : Bar) (levels : List ℚ) : Bool :=
  levels.any fun l => decide (c.low ≤ l)

/-- strategy.py: `_is_bearish_impulse` (`pd.notna` becomes `isSome`
with short-circuit evaluation before the comparisons). -/
def isBearishImpulse (cfg : TradingConfig) (c : Bar) : Bool :=
  decide (c.close < c.open_price) && c.avg_vol_20.isSome &&
    c.avg_body_20.isSome &&
    decide (cfg.impulse_volume_multiplier * c.avg_vol_20.getD 0 ≤ c.volume) &&
    decide (cfg.large_candle_body_multiplier * c.avg_body_20.getD 0 ≤ c.body)

/-- strategy.py: `_is_bullish_impulse`. -/
def isBullishImpulse (cfg : TradingConfig) (c : Bar) : Bool :=
  decide (c.open_price < c.close) && c.avg_vol_20.isSome &&
    c.avg_body_20.isSome &&
    decide (cfg.impulse_volume_multiplier * c.avg_vol_20.getD 0 ≤ c.volume) &&
    decide (cfg.large_candle_body_multiplier * c.avg_body_20.getD 0 ≤ c.body)

/-- strategy.py: `_pullback_short_rejection`. -/
def pullbackShortRejection (c : Bar) : Bool :=
  ([c.vwap, c.ema20, c.pp].any fun l => decide (l ≤ c.high)) &&
    decide (c.close < c.ema9) && decide (c.close < c.open_price)

/-- strategy.py: `_pullback_long_rejection`. -/
def pullbackLongRejection (c : Bar) : Bool :=
  ([c.vwap, c.ema20, c.pp].any fun l => decide (c.low ≤ l)) &&
    decide (c.ema9 < c.close) && decide (c.open_price < c.close)

/-- pandas `series.tail(3).max()` on a nonempty series (`0` on an
empty one, unreachable under the ≥25-row guard). -/
def tail3Max (xs : List ℚ) : ℚ :=
  match xs.drop (xs.length - 3) with
  | [] => 0
  | y :: ys => ys.foldl max y

/-- pandas `series.tail(3).min()` on a nonempty series. -/
def tail3Min (xs : List ℚ) : ℚ :=
  match xs.drop (xs.length - 3) with
  | [] => 0
  | y :: ys => ys.foldl min y

namespace StrategyEngine

/-- strategy.py: `StrategyEngine.evaluate(symbol, df, now)`.  The four
setup branches build a `TradeSignal` whose `score` and
`relative_volume` fields are the dataclass defaults — `evaluate`
computes no score. -/
def evaluate (cfg : TradingConfig) (symbol : String) (df : List Bar)
    (now : ℕ) : Option TradeSignal :=
  if df.length < 25 then none
  else
    let candle := df.getLastD default
    let prev := df.dropLast.getLastD default
    let bearish := bearishTrend candle
    let bullish := bullishTrend candle
    if bearish &&
        touches_resistance candle [candle.vwap, candle.pp, candle.r1] &&
        decide (candle.close < candle.vwap) &&
        decide (candle.close < candle.ema9) &&
        decide (prev.volume ≤ candle.volume) then
      some { symbol := symbol, side := .SELL, setup := .REJECTION,
             entry := candle.close,
             stop_loss := max (candle.vwap * 1.0025)
                              (tail3Max (df.map Bar.high)),
             target_1 := candle.s1, target_2 := some candle.s2,
             reason := "Bearish trend + rejection near VWAP/PP/R1 with volume confirmation",
             created_at := now }
    else if bullish &&
        touches_support candle [candle.vwap, candle.pp, candle.s1] &&
        decide (candle.ema9 < candle.close) &&
        decide (prev.volume ≤ candle.volume) then
      some { symbol := symbol, side := .BUY, setup := .REJECTION,
             entry := candle.close,
             stop_loss := min (candle.vwap * 0.9975)
                              (tail3Min (df.map Bar.low)),
             target_1 := candle.r1, target_2 := some candle.r2,
             reason := "Bullish trend + rejection near VWAP/PP/S1 with volume confirmation",
             created_at := now }
    else if bearish && isBearishImpulse cfg prev &&
        pullbackShortRejection candle then
      some { symbol := symbol, side := .SELL, setup := .PULLBACK,
             entry := candle.close,
             stop_loss := max candle.vwap candle.high,
             target_1 := candle.s1, target_2 := some candle.s2,
             reason := "Bearish impulse + pullback rejection to VWAP/EMA20/Pivot",
             created_at := now }
    else if bullish && isBullishImpulse cfg prev &&
        pullbackLongRejection candle then
      some { symbol := symbol, side := .BUY, setup := .PULLBACK,
             entry := candle.close,
             stop_loss := min candle.vwap candle.low,
             target_1 := candle.r1, target_2 := some candle.r2,
             reason := "Bullish impulse + pullback rejection to VWAP/EMA20/Pivot",
             created_at := now }
    else none

end StrategyEngine

/-- A backtest timestamp: (day, minute of day).  `current_time.date()`
is the first component, `current_time.time()` the second. -/
abbrev Ts := ℕ × ℕ

/-- A dataframe indexed by timestamp, as the backtest holds it:
ascending rows of (timestamp, bar). -/
abbrev Df := List (Ts × Bar)

/-- indicators.py: `standard_pivots`. -/
structure Pivots where
  pp : ℚ
  r1 : ℚ
  r2 : ℚ
  s1 : ℚ
  s2 : ℚ
deriving DecidableEq, Repr

/-- indicators.py: `standard_pivots(prev_day_high, prev_day_low,
prev_day_close)`. -/
def standard_pivots (prev_day_high prev_day_low prev_day_close : ℚ) :
    Pivots :=
  let pp := (prev_day_high + prev_day_low + prev_day_close) / 3
  { pp := pp
    r1 := 2 * pp - prev_day_low
    s1 := 2 * pp - prev_day_high
    r2 := pp + (prev_day_high - prev_day_low)
    s2 := pp - (prev_day_high - prev_day_low) }

/-- backtest.py lines 79-86: the engine invokes `add_indicators(df,
pivots, ema_fast, ema_slow, rsi_period, atr_period=cfg.atr_period)`.
`add_indicators` (indicators.py line 32) is declared with exactly the
five parameters `(df_5m, pivots, ema_fast, ema_slow, rsi_period)` and
no `**kwargs`, so Python raises `TypeError: unexpected keyword
argument` before the body runs. -/
def addIndicatorsAtrKwCall (_df : Df) (_pivots : Pivots)
    (_ema_fast _ema_slow _rsi_period _atr_period : ℕ) : Except PyErr Df :=
  .error .typeError

/-- backtest.py `run`, indicator pre-computation loop: empty series
are skipped; for each non-empty series pivots are derived from the
first row and `add_indicators` is called with the `atr_period`
keyword. -/
def precompute (cfg : TradingConfig) :
    List (String × Df) → Except PyErr (List (String × Df))
  | [] => .ok []
  | (symbol, df) :: rest =>
    match df with
    | [] => precompute cfg rest
    | (_, first) :: _ => do
      let pivots := standard_pivots (first.high * 1.01) (first.low * 0.99)
        first.close
      let d ← addIndicatorsAtrKwCall df pivots cfg.ema_fast_period
        cfg.ema_slow_period cfg.rsi_period cfg.atr_period
      let r ← precompute cfg rest
      .ok ((symbol, d) :: r)

/-- An order recorded by the backtest's `MockExecutor.orders` list:
`place_entry` stores the signal and quantity, `place_exit` stores the
position object, reason, optional price and optional quantity. -/
inductive OrderRec where
  | entryOrd (signal : TradeSignal) (qty : ℕ)
  | exitOrd (position : OpenPosition) (reason : String) (price : Option ℚ)
      (qty : Option ℕ)
deriving DecidableEq, Repr

/-- A row of `BacktestEngine.trades_history`. -/
structure TradeRec where
  symbol : String
  side : Side
  entry : ℚ
  exit_price : ℚ
  quantity : ℕ
  pnl : ℚ
  reason : String
  time : Ts
deriving DecidableEq, Repr

/-- backtest.py: `BacktestResult` dataclass with its defaults. -/
structure BacktestResult where
  total_trades : ℕ := 0
  wins : ℕ := 0
  losses : ℕ := 0
  total_pnl : ℚ := 0
  win_rate : ℚ := 0
  trades : List TradeRec := []
deriving DecidableEq, Repr

/-- The mutable fields of a `BacktestEngine` instance. -/
structure BState where
  open_positions : List (String × OpenPosition) := []
  risk : DailyRiskState
  orders : List OrderRec := []
  trades : List TradeRec := []
  last_date : Option ℕ := none

/-- `data_map[symbol].loc[now]` guarded by `symbol in data_map` and
`now in df.index`. -/
def dataRow (data : List (String × Df)) (symbol : String) (now : Ts) :
    Option Bar :=
  match data.find? fun e => e.1 = symbol with
  | none => none
  | some (_, df) => (df.find? fun r => r.1 = now).map Prod.snd

/-- Python `"partial" in reason.lower()`: substring test on the
lower-cased reason. -/
def strContains (hay needle : String) : Bool :=
  hay.toList.tails.any fun t => needle.toList.isPrefixOf t

/-- The outcome of processing one open position inside
`BacktestEngine._manage_positions`. -/
structure ManageOneResult where
  position : OpenPosition
  removed : Bool
  orders : List OrderRec
  risk : DailyRiskState
  trades : List TradeRec

/-- backtest.py `_manage_positions`, body of the per-symbol loop
before the removal check: delegate to `ExitManager.manage_exit`; on a
full close inspect the executor's last order — a full (qty-less,
non-partial) exit zeroes the position's quantity — record the trade
and register its PnL. -/
def manage_one_core (cfg : TradingConfig) (orders0 : List OrderRec)
    (risk0 : DailyRiskState) (trades0 : List TradeRec) (symbol : String)
    (p : OpenPosition) (row : Bar) (now : Ts) :
    OpenPosition × List OrderRec × DailyRiskState × List TradeRec :=
  let r := manage_exit cfg p row now.2
  let p1 := r.2.1
  let orders1 := orders0 ++ r.2.2.map fun o =>
    OrderRec.exitOrd p1 o.reason o.price o.qty
  if r.1 then
    match orders1.getLast? with
    | some (.exitOrd pos reason price qty) =>
      if pos.symbol = symbol then
        let exit_price := price.getD row.close
        let isHalfExit := strContains reason.toLower "partial"
        let pq : ℕ × OpenPosition :=
          match qty with
          | none => (p1.quantity, if isHalfExit then p1
                                  else { p1 with quantity := 0 })
          | some q => (q, p1)
        let direction : ℚ := if p1.side = Side.BUY then 1 else -1
        let pnl := (exit_price - p1.entry) * direction * (pq.1 : ℚ)
        let hist : TradeRec :=
          { symbol := symbol, side := p1.side, entry := p1.entry,
            exit_price := exit_price, quantity := pq.1, pnl := pnl,
            reason := reason, time := now }
        (pq.2, orders1, risk0.register_exit pnl, trades0 ++ [hist])
      else (p1, orders1, risk0, trades0)
    | _ => (p1, orders1, risk0, trades0)
  else (p1, orders1, risk0, trades0)

/-- backtest.py `_manage_positions`, full per-symbol step: after the
close handling, `if position.quantity == 0` marks the position for
removal. -/
def manage_one (cfg : TradingConfig) (orders0 : List OrderRec)
    (risk0 : DailyRiskState) (trades0 : List TradeRec) (symbol : String)
    (p : OpenPosition) (row : Bar) (now : Ts) : ManageOneResult :=
  let core := manage_one_core cfg orders0 risk0 trades0 symbol p row now
  { position := core.1, removed := core.1.quantity == 0,
    orders := core.2.1, risk := core.2.2.1, trades := core.2.2.2 }

/-- The accumulated outcome of `_manage_positions`: positions kept,
positions evicted (with their state at the moment of removal), and the
threaded executor/risk/history state. -/
structure MPResult where
  kept : List (String × OpenPosition)
  removed : List (String × OpenPosition)
  orders : List OrderRec
  risk : DailyRiskState
  trades : List TradeRec

/-- backtest.py `_manage_positions`: loop over the open positions;
symbols without a bar at this exact timestamp are kept untouched;
positions whose quantity is `0` after the step are evicted. -/
def manage_positions_go (cfg : TradingConfig) (data : List (String × Df))
    (now : Ts) : List (String × OpenPosition) → List OrderRec →
    DailyRiskState → List TradeRec → MPResult
  | [], os, rk, tr =>
    { kept := [], removed := [], orders := os, risk := rk, trades := tr }
  | (symbol, p) :: rest, os, rk, tr =>
    match dataRow data symbol now with
    | none =>
      let r := manage_positions_go cfg data now rest os rk tr
      { r with kept := (symbol, p) :: r.kept }
    | some row =>
      let m := manage_one cfg os rk tr symbol p row now
      let r := manage_positions_go cfg data now rest m.orders m.risk m.trades
      if m.removed then { r with removed := (symbol, m.position) :: r.removed }
      else { r with kept := (symbol, m.position) :: r.kept }

/-- backtest.py `_manage_positions` as a state transformer, also
returning the evicted positions as observed at removal time. -/
def manage_positions (cfg : TradingConfig) (st : BState) (now : Ts)
    (data : List (String × Df)) : BState × List (String × OpenPosition) :=
  let r := manage_positions_go cfg data now st.open_positions st.orders
    st.risk st.trades
  ({ st with open_positions := r.kept, orders := r.orders, risk := r.risk,
             trades := r.trades }, r.removed)

/-- backtest.py `_force_close_all`, body of the loop: exit price is
the bar close when a bar exists at this timestamp, else the entry;
place the exit order, record the trade with the position's current
quantity, register the PnL, delete the position.  The position's
`quantity` field is never written. -/
def force_close_go (data : List (String × Df)) (now : Ts) :
    List (String × OpenPosition) → List OrderRec → DailyRiskState →
    List TradeRec → List OrderRec × DailyRiskState × List TradeRec
  | [], os, rk, tr => (os, rk, tr)
  | (symbol, p) :: rest, os, rk, tr =>
    let exit_price := (dataRow data symbol now).elim p.entry Bar.close
    let direction : ℚ := if p.side = Side.BUY then 1 else -1
    let pnl := (exit_price - p.entry) * direction * (p.quantity : ℚ)
    force_close_go data now rest
      (os ++ [.exitOrd p "force_square_off_1520" (some exit_price) none])
      (rk.register_exit pnl)
      (tr ++ [{ symbol := symbol, side := p.side, entry := p.entry,
                exit_price := exit_price, quantity := p.quantity, pnl := pnl,
                reason := "force_square_off_1520", time := now }])

/-- backtest.py `_force_close_all`: every open position is closed and
removed. -/
def force_close_all (st : BState) (now : Ts)
    (data : List (String × Df)) : BState :=
  let r := force_close_go data now st.open_positions st.orders st.risk
    st.trades
  { st with open_positions := [], orders := r.1, risk := r.2.1,
            trades := r.2.2 }

/-- backtest.py line 232: `self.strategy.evaluate(symbol,
current_view, now, nifty_view)`.  `StrategyEngine.evaluate`
(strategy.py line 15) is declared with parameters `(self, symbol, df,
now)`; the call supplies four positional arguments, so Python raises
`TypeError` before the body runs. -/
def callStrategyEvaluate4 (_cfg : TradingConfig) (_symbol : String)
    (_view : List Bar) (_now : Ts) (_nifty_view : Option (List Bar)) :
    Except PyErr (Option TradeSignal) :=
  .error .typeError

/-- backtest.py `_scan_and_enter`, NIFTY window for scoring: present
when "NIFTY 50" is in the data map, has a bar at `now`, and at least
20 prior rows. -/
def niftyView (data : List (String × Df)) (now : Ts) :
    Option (List Bar) :=
  match data.find? fun e => e.1 = "NIFTY 50" with
  | none => none
  | some (_, ndf) =>
    match ndf.findIdx? fun r => r.1 = now with
    | none => none
    | some n_idx =>
      if 20 ≤ n_idx then some (((ndf.drop (n_idx - 20)).take 21).map Prod.snd)
      else none

/-- backtest.py `_scan_and_enter`, signal-collection loop: skip the
index symbol, excluded symbols, already-open symbols, risk-blocked
symbols, symbols without a bar at `now` or with fewer than 30 prior
rows; then call the strategy with four arguments — the per-symbol
`except` handler swallows the resulting `TypeError` and continues. -/
def collect_signals (cfg : TradingConfig) (risk : DailyRiskState)
    (openSyms : List String) (data : List (String × Df)) (now : Ts) :
    List (String × Df) → List TradeSignal
  | [] => []
  | (symbol, df) :: rest =>
    if symbol = "NIFTY 50" ∨ symbol ∈ cfg.excluded_symbols then
      collect_signals cfg risk openSyms data now rest
    else if symbol ∈ openSyms then
      collect_signals cfg risk openSyms data now rest
    else if !(risk.can_trade symbol cfg.max_total_trades_per_day
        cfg.max_trades_per_stock_per_day) then
      collect_signals cfg risk openSyms data now rest
    else
      match df.findIdx? fun r => r.1 = now with
      | none => collect_signals cfg risk openSyms data now rest
      | some idx =>
        if idx < 30 then collect_signals cfg risk openSyms data now rest
        else
          let view := ((df.drop (idx - 30)).take 31).map Prod.snd
          match callStrategyEvaluate4 cfg symbol view now
            (niftyView data now) with
          | .ok (some s) => s :: collect_signals cfg risk openSyms data now rest
          | .ok none => collect_signals cfg risk openSyms data now rest
          | .error _ => collect_signals cfg risk openSyms data now rest

/-- backtest.py `_scan_and_enter` lines 185-197: the market-trend
check over a trailing 21-bar NIFTY window (the processed frame carries
an `ema20` column but no `ema50`); its value is computed and then not
used by the rest of the scan. -/
def scanIndexState (data : List (String × Df)) (now : Ts) : IndexState :=
  match data.find? fun e => e.1 = "NIFTY 50" with
  | none => .NEUTRAL
  | some (_, ndf) =>
    match ndf.findIdx? fun r => r.1 = now with
    | none => .NEUTRAL
    | some idx =>
      if 20 ≤ idx then
        let w := ((ndf.drop (idx - 20)).take 21).map Prod.snd
        analyze_index_trend
          { close := w.map Bar.close, ema20 := some (w.map Bar.ema20) }
      else .NEUTRAL

/-- `potential_signals.sort(key=lambda s: (s.score,
s.relative_volume), reverse=True)`: `a` precedes `b` in the ranked
order. -/
def signalPrec (a b : TradeSignal) : Bool :=
  decide (b.score < a.score) ||
    (decide (a.score = b.score) && decide (b.relative_volume ≤ a.relative_volume))

/-- Insertion step of the ranking sort. -/
def insertSignal (x : TradeSignal) : List TradeSignal → List TradeSignal
  | [] => [x]
  | y :: ys => if signalPrec x y then x :: y :: ys else y :: insertSignal x ys

/-- The ranked signal list (score descending, relative volume
descending). -/
def sortSignals (xs : List TradeSignal) : List TradeSignal :=
  xs.foldr insertSignal []

/-- backtest.py `_scan_and_enter`, admission loop: stop at the daily
trade cap, skip risk-blocked symbols, size via `position_size` (a call
that can raise), and open a position on a positive quantity. -/
def execute_signals (cfg : TradingConfig) (capital : ℚ) (now : Ts) :
    List TradeSignal → BState → Except PyErr BState
  | [], st => .ok st
  | s :: rest, st =>
    if cfg.max_total_trades_per_day ≤ st.risk.total_trades then .ok st
    else if !(st.risk.can_trade s.symbol cfg.max_total_trades_per_day
        cfg.max_trades_per_stock_per_day) then
      execute_signals cfg capital now rest st
    else do
      let qty ← position_size capital cfg.max_trade_capital
        cfg.risk_per_trade_pct s.entry s.stop_loss
      if 0 < qty then
        let newPos : OpenPosition :=
          { symbol := s.symbol, side := s.side, quantity := qty.toNat,
            setup := s.setup, entry := s.entry, stop_loss := s.stop_loss,
            target_1 := s.target_1, target_2 := s.target_2,
            opened_at := some now }
        execute_signals cfg capital now rest
          { st with
            orders := st.orders ++ [.entryOrd s qty.toNat]
            open_positions := st.open_positions ++ [(s.symbol, newPos)]
            risk := st.risk.register_trade s.symbol }
      else execute_signals cfg capital now rest st

/-- backtest.py `_scan_and_enter`: early return at the daily cap;
compute the (unused) market-trend state; collect, rank and admit
signals. -/
def scan_and_enter (cfg : TradingConfig) (capital : ℚ) (st : BState)
    (data : List (String × Df)) (now : Ts) : Except PyErr BState :=
  if cfg.max_total_trades_per_day ≤ st.risk.total_trades then .ok st
  else
    let _index_state := scanIndexState data now
    execute_signals cfg capital now
      (sortSignals (collect_signals cfg st.risk
        (st.open_positions.map Prod.fst) data now data)) st

/-- backtest.py `run`: the union of all per-symbol timestamps
(Python builds a `set`). -/
def unionTimestamps (data_map : List (String × Df)) : List Ts :=
  (data_map.foldl (fun acc e => acc ++ e.2.map Prod.fst) []).dedup

/-- Chronological order on timestamps (day, then minute). -/
def tsLe (a b : Ts) : Bool :=
  decide (a.1 < b.1) || (decide (a.1 = b.1) && decide (a.2 ≤ b.2))

/-- Insertion step of the timeline sort. -/
def insertTs (x : Ts) : List Ts → List Ts
  | [] => [x]
  | y :: ys => if tsLe x y then x :: y :: ys else y :: insertTs x ys

/-- `sorted(all_timestamps)`. -/
def sortTs (xs : List Ts) : List Ts := xs.foldr insertTs []

/-- backtest.py `_stats`: aggregates recomputed from the trade
history; an empty history yields the default `BacktestResult()`. -/
def stats (trades : List TradeRec) : BacktestResult :=
  match trades with
  | [] => {}
  | _ =>
    let wins := (trades.filter fun t => 0 < t.pnl).length
    let losses := (trades.filter fun t => t.pnl ≤ 0).length
    { total_trades := trades.length, wins := wins, losses := losses,
      total_pnl := (trades.map TradeRec.pnl).sum,
      win_rate := (wins : ℚ) / (trades.length : ℚ), trades := trades }

/-- backtest.py `run`, body of the timeline loop: reset the risk state
on a day change, skip timestamps before `scan_start`, force-close
everything at/after `force_exit`, otherwise manage positions and then
scan for entries when at/before `last_entry`. -/
def simStep (cfg : TradingConfig) (capital : ℚ)
    (data : List (String × Df)) (st : BState) (t : Ts) :
    Except PyErr BState :=
  let st1 := if st.last_date ≠ some t.1 then
      { st with risk := st.risk.reset, last_date := some t.1 }
    else st
  if t.2 < cfg.scan_start then .ok st1
  else if cfg.force_exit ≤ t.2 then .ok (force_close_all st1 t data)
  else
    let st2 := (manage_positions cfg st1 t data).1
    if t.2 ≤ cfg.last_entry then scan_and_enter cfg capital st2 data t
    else .ok st2

/-- backtest.py `run`: the timeline loop. -/
def simLoop (cfg : TradingConfig) (capital : ℚ)
    (data : List (String × Df)) : List Ts → BState → Except PyErr BState
  | [], st => .ok st
  | t :: rest, st => do
    simLoop cfg capital data rest (← simStep cfg capital data st t)

/-- The engine state at construction time. -/
def initState (cfg : TradingConfig) (capital : ℚ) : BState :=
  { risk := { capital := capital, max_daily_loss_pct := cfg.daily_max_loss_pct } }

namespace BacktestEngine

/-- backtest.py `BacktestEngine.run`: build the sorted timestamp
union, precompute indicators per symbol (the phase whose
`add_indicators` call carries the `atr_period` keyword), replay the
timeline, and aggregate the trade history. -/
def run (cfg : TradingConfig) (capital : ℚ)
    (data_map : List (String × Df)) : Except PyErr BacktestResult := do
  let sorted_timestamps := sortTs (unionTimestamps data_map)
  let processed ← precompute cfg data_map
  let final ← simLoop cfg capital processed sorted_timestamps
    (initState cfg capital)
  .ok (stats final.trades)

end BacktestEngine

/-- One call into the exit layer during a position's lifetime: either
`ExitManager.manage_exit` (with some config, candle and time) or
`evaluate_exit` (with some candle, time and force-exit cutoff). -/
inductive ExitStep where
  | manage (cfg : TradingConfig) (c : Bar) (now : ℕ)
  | evalx (c : Bar) (now : ℕ) (force_exit_time : ℕ)

/-- The position after one exit-layer call (the in-place mutation the
call performs). -/
def applyExitStep (p : OpenPosition) : ExitStep → OpenPosition
  | .manage cfg c now => (manage_exit cfg p c now).2.1
  | .evalx c now fet => (evaluate_exit p c now fet).2

/-- The position after a sequence of exit-layer calls. -/
def applyExitSteps (steps : List ExitStep) (p : OpenPosition) :
    OpenPosition :=
  steps.foldl applyExitStep p

/-- Scenario position for the layered-exit scenarios: long, entry 100,
stop 99, target_1 102, target_2 104, target_1 not yet hit. -/
def scenPos (q : ℕ) : OpenPosition :=
  { symbol := "INFY", side := .BUY, quantity := q, setup := .PULLBACK,
    entry := 100, stop_loss := 99, target_1 := 102, target_2 := some 104 }

/-- Scenario candle {low 100.0, high 102.5, close 102.2}. -/
def scenCandle : Bar := { low := 100, high := 102.5, close := 102.2 }

/-- The scenario position after the partial booking: half the
quantity gone, target_1_hit set, stop moved to breakeven 100. -/
def scenPosAfterT1 (q : ℕ) : OpenPosition :=
  { symbol := "INFY", side := .BUY, quantity := q - q / 2,
    setup := .PULLBACK, entry := 100, stop_loss := 100,
    target_1 := 102, target_2 := some 104, target_1_hit := true }

/-- A filler bar matching the test fixture `_base_df` rows. -/
def c3base : Bar :=
  { open_price := 100, high := 101, low := 99, close := 100,
    volume := 1000, vwap := 100, pp := 100, r1 := 102, r2 := 104,
    s1 := 98, s2 := 96, ema9 := 100, ema20 := 100, rsi := 50, body := 1,
    avg_vol_20 := some 1000, avg_range_20 := some 2,
    avg_body_20 := some 1 }

/-- A final bar satisfying the bullish rejection setup (setup A long):
bullish trend, low touching support, close above the fast EMA, volume
above the previous bar. -/
def c3last : Bar :=
  { open_price := 100.8, high := 101.8, low := 97.9, close := 101.5,
    volume := 1200, vwap := 100, pp := 100.2, r1 := 103, r2 := 104,
    s1 := 98, s2 := 96, ema9 := 101, ema20 := 100.5, rsi := 60,
    body := 0.7, avg_vol_20 := some 1000, avg_range_20 := some 2,
    avg_body_20 := some 1 }

/-- A 25-row window whose last bar fires the bullish rejection
setup. -/
def c3df : List Bar := List.replicate 24 c3base ++ [c3last]

/-- The signal `evaluate` produces on `c3df`: entry at the close, stop
at `min(vwap·0.9975, min of last-3 lows) = 97.9`, targets at r1/r2 —
and the dataclass-default `score := 0`. -/
def c3sig : TradeSignal :=
  { symbol := "INFY", side := .BUY, setup := .REJECTION, entry := 101.5,
    stop_loss := 97.9, target_1 := 103, target_2 := some 104,
    reason := "Bullish trend + rejection near VWAP/PP/S1 with volume confirmation",
    created_at := 600 }

/-- A runner position (target_1 already hit, stop at 95). -/
def runnerPos : OpenPosition :=
  { symbol := "INFY", side := .BUY, quantity := 5, setup := .PULLBACK,
    entry := 100, stop_loss := 95, target_1 := 102, target_2 := some 104,
    target_1_hit := true }

/-- A candle closing below the fast EMA without touching the stop:
fires the trailing layer for `runnerPos`. -/
def trailCandle : Bar :=
  { low := 99, high := 100, close := 98.5, ema9 := 99, vwap := 1,
    ema20 := 1 }

/-- An open long position with quantity 5, used to exercise the force
square-off path. -/
def c7pos : OpenPosition :=
  { symbol := "INFY", side := .BUY, quantity := 5, setup := .PULLBACK,
    entry := 100, stop_loss := 99, target_1 := 102, target_2 := some 104 }

/-- An engine state holding `c7pos` open. -/
def c7state : BState :=
  { open_positions := [("INFY", c7pos)],
    risk := { capital := 100000, max_daily_loss_pct := 0.02 } }

/-- The risk-state scenario: capital 100000, max daily loss 2%. -/
def c6st0 : DailyRiskState :=
  { capital := 100000, max_daily_loss_pct := 0.02 }

/-- After `register_trade("INFY")`. -/
def c6st1 : DailyRiskState := c6st0.register_trade "INFY"

/-- After a further `register_exit(-3000)`. -/
def c6st2 : DailyRiskState := c6st1.register_exit (-3000)

/-- A 60-row index frame with precomputed ema columns, price above
both EMAs and EMA20 above EMA50. -/
def c10df : IndexDf :=
  { close := List.replicate 60 105, ema20 := some (List.replicate 60 102),
    ema50 := some (List.replicate 60 100) }

/-- A data map holding one non-empty series. -/
def dmOneBar : List (String × Df) := [("INFY", [((0, 600), c3base)])]

/-- A data map whose series are all empty. -/
def dmAllEmpty : List (String × Df) := [("INFY", []), ("TCS", [])]

/-! ## Theorems -/

/-- C5 counterexample: `position_size(100000, 5000, 0.01, 0.0, 1.0)`
raises `ZeroDivisionError` instead of returning 0, refuting "returns 0
whenever … entry ≤ 0 (total, never failing)". -/
theorem position_size_zero_entry_raises :
    position_size 100000 5000 (1/100) 0 1 = .error .zeroDivisionError := by
  unfold position_size
  norm_num

/-- C5 (amended): `position_size` returns
`max(0, min(⌊capital·risk_pct/|entry−stop|⌋, ⌊max_trade_capital/entry⌋))`
whenever the stop distance and the entry are both nonzero; it returns 0
when the stop distance is zero, and also for negative entry (given a
nonnegative capital cap); but at entry = 0 with a nonzero stop distance
it raises `ZeroDivisionError` rather than returning 0.  The scenario
`position_size(100000, 5000, 0.01, 100.0, 99.0) = 50` follows. -/
theorem position_size_spec
    (capital max_trade_capital risk_pct entry stop_loss : ℚ) :
    (|entry - stop_loss| = 0 →
      position_size capital max_trade_capital risk_pct entry stop_loss =
        .ok 0) ∧
    (entry = 0 → |entry - stop_loss| ≠ 0 →
      position_size capital max_trade_capital risk_pct entry stop_loss =
        .error .zeroDivisionError) ∧
    (entry ≠ 0 → |entry - stop_loss| ≠ 0 →
      position_size capital max_trade_capital risk_pct entry stop_loss =
        .ok (max (min ⌊capital * risk_pct / |entry - stop_loss|⌋
                      ⌊max_trade_capital / entry⌋) 0)) ∧
    (entry < 0 → 0 ≤ max_trade_capital →
      position_size capital max_trade_capital risk_pct entry stop_loss =
        .ok 0) := by
  have habs : (0:ℚ) ≤ |entry - stop_loss| := abs_nonneg _
  refine ⟨?_, ?_, ?_, ?_⟩
  · intro h
    unfold position_size
    rw [if_pos (le_of_eq h)]
  · intro h0 hd
    unfold position_size
    rw [if_neg (by intro hle; exact hd (le_antisymm hle habs)),
        if_pos h0]
  · intro h0 hd
    unfold position_size
    rw [if_neg (by intro hle; exact hd (le_antisymm hle habs)),
        if_neg h0]
  · intro hneg hcap
    by_cases hd : |entry - stop_loss| = 0
    · unfold position_size
      rw [if_pos (le_of_eq hd)]
    · unfold position_size
      rw [if_neg (by intro hle; exact hd (le_antisymm hle habs)),
          if_neg (ne_of_lt hneg)]
      have hq : max_trade_capital / entry ≤ 0 :=
        div_nonpos_of_nonneg_of_nonpos hcap (le_of_lt hneg)
      have hfl : ⌊max_trade_capital / entry⌋ ≤ 0 := by
        calc ⌊max_trade_capital / entry⌋ ≤ ⌊(0:ℚ)⌋ := Int.floor_le_floor hq
          _ = 0 := Int.floor_zero
      have : min ⌊capital * risk_pct / |entry - stop_loss|⌋
          ⌊max_trade_capital / entry⌋ ≤ 0 := le_trans (min_le_right _ _) hfl
      rw [max_eq_right this]

/-- C5 witness: the amended statement at the documented scenario and at
zero stop distance. -/
theorem position_size_spec_w :
    position_size 100000 5000 (1/100) 100 99 = .ok 50 ∧
    position_size 100000 5000 (1/100) 100 100 = .ok 0 := by
  constructor
  · have h := (position_size_spec 100000 5000 (1/100) 100 99).2.2.1
      (by norm_num) (by norm_num)
    rw [h]
    norm_num
  · exact (position_size_spec 100000 5000 (1/100) 100 100).1 (by norm_num)

/-- C6: `can_trade` is false exactly when the realized PnL has reached
the daily loss ceiling, or the daily trade cap is reached, or the
symbol's own cap is reached; the loss ceiling blocks every symbol; and
the capital-100000 / 2% scenario behaves as documented. -/
theorem can_trade_spec :
    (∀ (s : DailyRiskState) (symbol : String) (mt mps : ℕ),
      s.can_trade symbol mt mps = false ↔
        (s.realized_pnl ≤ -(s.capital * s.max_daily_loss_pct) ∨
         mt ≤ s.total_trades ∨ mps ≤ s.symbol_trade_count symbol)) ∧
    (∀ (s : DailyRiskState) (symbol : String) (mt mps : ℕ),
      s.realized_pnl ≤ -(s.capital * s.max_daily_loss_pct) →
      s.can_trade symbol mt mps = false) ∧
    c6st1.can_trade "INFY" 2 1 = false ∧
    c6st1.can_trade "TCS" 2 1 = true ∧
    (∀ symbol : String, c6st2.can_trade symbol 2 1 = false) := by
  have hiff : ∀ (s : DailyRiskState) (symbol : String) (mt mps : ℕ),
      s.can_trade symbol mt mps = false ↔
        (s.realized_pnl ≤ -(s.capital * s.max_daily_loss_pct) ∨
         mt ≤ s.total_trades ∨ mps ≤ s.symbol_trade_count symbol) := by
    intro s symbol mt mps
    unfold DailyRiskState.can_trade DailyRiskState.max_daily_loss_amount
    split_ifs with h1 h2 h3 <;> simp_all
  have hinfy : c6st1.can_trade "INFY" 2 1 = false := by
    apply (hiff c6st1 "INFY" 2 1).mpr
    right; right
    simp [c6st1, c6st0, DailyRiskState.register_trade]
  have htcs : c6st1.can_trade "TCS" 2 1 = true := by
    have h1 : ¬ (c6st1.realized_pnl ≤ -c6st1.max_daily_loss_amount) := by
      simp [c6st1, c6st0, DailyRiskState.register_trade,
        DailyRiskState.max_daily_loss_amount]
      norm_num
    have h2 : ¬ ((2:ℕ) ≤ c6st1.total_trades) := by
      simp [c6st1, c6st0, DailyRiskState.register_trade]
    have h3 : ¬ ((1:ℕ) ≤ c6st1.symbol_trade_count "TCS") := by
      simp [c6st1, c6st0, DailyRiskState.register_trade]
    unfold DailyRiskState.can_trade
    rw [if_neg h1, if_neg h2, if_neg h3]
  refine ⟨hiff, ?_, hinfy, htcs, ?_⟩
  · intro s symbol mt mps h
    exact (hiff s symbol mt mps).mpr (Or.inl h)
  · intro symbol
    apply (hiff c6st2 symbol 2 1).mpr
    left
    show c6st2.realized_pnl ≤ -(c6st2.capital * c6st2.max_daily_loss_pct)
    norm_num [c6st2, c6st1, c6st0, DailyRiskState.register_exit,
      DailyRiskState.register_trade]

/-- C6 witness: the lockout clause applied to a fresh symbol after the
realized loss exceeds the ceiling. -/
theorem can_trade_spec_w : c6st2.can_trade "RELIANCE" 2 1 = false :=
  can_trade_spec.2.1 c6st2 "RELIANCE" 2 1 (by
    norm_num [c6st2, c6st1, c6st0, DailyRiskState.register_exit,
      DailyRiskState.register_trade])

/-- C10: `analyze_index_trend` is a function of its input frame; it is
NEUTRAL for fewer than 50 rows, otherwise BULLISH when the last close
and EMA20 both exceed EMA50, BEARISH when both are below EMA50, and
NEUTRAL in every other case (EMA columns are taken from the frame when
present and computed with spans 20/50 otherwise). -/
theorem analyze_index_trend_spec (df : IndexDf) :
    (df.close.length < 50 → analyze_index_trend df = .NEUTRAL) ∧
    (50 ≤ df.close.length →
      (((df.ema50.getD (emaSpan 50 df.close)).getLastD 0 <
          df.close.getLastD 0 ∧
        (df.ema50.getD (emaSpan 50 df.close)).getLastD 0 <
          (df.ema20.getD (emaSpan 20 df.close)).getLastD 0) →
        analyze_index_trend df = .BULLISH) ∧
      ((df.close.getLastD 0 <
          (df.ema50.getD (emaSpan 50 df.close)).getLastD 0 ∧
        (df.ema20.getD (emaSpan 20 df.close)).getLastD 0 <
          (df.ema50.getD (emaSpan 50 df.close)).getLastD 0) →
        analyze_index_trend df = .BEARISH) ∧
      (¬ ((df.ema50.getD (emaSpan 50 df.close)).getLastD 0 <
            df.close.getLastD 0 ∧
          (df.ema50.getD (emaSpan 50 df.close)).getLastD 0 <
            (df.ema20.getD (emaSpan 20 df.close)).getLastD 0) →
       ¬ (df.close.getLastD 0 <
            (df.ema50.getD (emaSpan 50 df.close)).getLastD 0 ∧
          (df.ema20.getD (emaSpan 20 df.close)).getLastD 0 <
            (df.ema50.getD (emaSpan 50 df.close)).getLastD 0) →
        analyze_index_trend df = .NEUTRAL)) := by
  constructor
  · intro h
    unfold analyze_index_trend
    rw [if_pos h]
  · intro h
    refine ⟨?_, ?_, ?_⟩ <;> intro hc <;> [skip; skip; intro hc2] <;>
      unfold analyze_index_trend <;> rw [if_neg (by omega)]
    · rw [if_pos hc]
    · rw [if_neg (by
        intro hb
        exact absurd hc.1 (not_lt_of_gt hb.1)), if_pos hc]
    · rw [if_neg hc, if_neg hc2]

/-- C10 witness: the BULLISH clause at a 60-row frame with
precomputed EMA columns. -/
theorem analyze_index_trend_spec_w : analyze_index_trend c10df = .BULLISH :=
  ((analyze_index_trend_spec c10df).2 (by decide)).1 (by decide)

/-- C9 counterexample: when the trailing layer fires, the reason
string handed to the executor is `ema_9_trailing_stop`, not the
claimed token `ema_trailing_stop`. -/
theorem trailing_reason_cex :
    manage_exit defaultConfig runnerPos trailCandle 600 =
      (true, runnerPos, [{ reason := "ema_9_trailing_stop" }]) ∧
    "ema_9_trailing_stop" ≠ "ema_trailing_stop" := by
  refine ⟨?_, by decide⟩
  unfold manage_exit
  rw [if_neg (by decide : ¬ (defaultConfig.force_exit ≤ 600))]
  rw [if_neg (by simp [runnerPos] :
    ¬ ((!runnerPos.target_1_hit && check_target_1 runnerPos trailCandle)
        = true))]
  unfold manage_exit_tail
  rw [if_neg (by decide : ¬ (check_stop_loss runnerPos trailCandle = true))]
  rw [if_pos (show (runnerPos.target_1_hit &&
      check_trailing_exit runnerPos trailCandle) = true by
    simp [runnerPos, trailCandle, check_trailing_exit]
    norm_num)]
  simp

/-- C9 (amended): whenever `manage_exit` reaches the trailing layer
and it fires — before the force cutoff, target_1 already hit, no stop
breach, close beyond the fast EMA against the position — the position
is closed 100% (one qty-less exit order, result `true`) and the reason
string is exactly `ema_9_trailing_stop`. -/
theorem trailing_exit_reason (cfg : TradingConfig) (p : OpenPosition)
    (c : Bar) (now : ℕ) (hforce : now < cfg.force_exit)
    (ht1 : p.target_1_hit = true) (hsl : check_stop_loss p c = false)
    (htr : check_trailing_exit p c = true) :
    manage_exit cfg p c now =
      (true, p, [{ reason := "ema_9_trailing_stop" }]) := by
  unfold manage_exit
  rw [if_neg (by omega : ¬ (cfg.force_exit ≤ now))]
  rw [if_neg (by simp [ht1] :
    ¬ ((!p.target_1_hit && check_target_1 p c) = true))]
  unfold manage_exit_tail
  rw [if_neg (by simp [hsl] : ¬ (check_stop_loss p c = true))]
  rw [if_pos (by simp [ht1, htr] :
    (p.target_1_hit && check_trailing_exit p c) = true)]
  simp

/-- C9 witness: the amended statement at the runner scenario. -/
theorem trailing_exit_reason_w :
    manage_exit defaultConfig runnerPos trailCandle 600 =
      (true, runnerPos, [{ reason := "ema_9_trailing_stop" }]) :=
  trailing_exit_reason defaultConfig runnerPos trailCandle 600 (by decide)
    rfl (by decide)
    (by simp [runnerPos, trailCandle, check_trailing_exit]; norm_num)

/-- Layers 2-4 never mutate the position. -/
theorem manage_exit_tail_position (p : OpenPosition) (c : Bar) (now : ℕ)
    (os : List ExitOrder) : (manage_exit_tail p c now os).2.1 = p := by
  unfold manage_exit_tail
  split_ifs <;> rfl

/-- Once `target_1_hit` is true, `manage_exit` leaves the position
unchanged (the partial layer is gated on `not target_1_hit` and no
other layer mutates it). -/
theorem manage_exit_position_of_t1 (cfg : TradingConfig)
    (p : OpenPosition) (c : Bar) (now : ℕ) (h : p.target_1_hit = true) :
    (manage_exit cfg p c now).2.1 = p := by
  by_cases h1 : cfg.force_exit ≤ now
  · simp [manage_exit, h1]
  · have h2 : (!p.target_1_hit && check_target_1 p c) = false := by
      simp [h]
    simp [manage_exit, h1, h2, manage_exit_tail_position]

/-- Once `target_1_hit` is true, `evaluate_exit` leaves the position
unchanged. -/
theorem evaluate_exit_position_of_t1 (p : OpenPosition) (c : Bar)
    (now fet : ℕ) (h : p.target_1_hit = true) :
    (evaluate_exit p c now fet).2 = p := by
  unfold evaluate_exit
  by_cases hf : fet ≤ now
  · simp [hf]
  · cases hs : p.side <;>
      simp only [hs, if_neg hf, Bool.false_and, h, Bool.not_true,
        Bool.false_eq_true, if_false] <;>
      split_ifs <;>
      cases p.target_2 <;> simp [h] <;> split_ifs <;> rfl

/-- One exit-layer call never clears `target_1_hit`. -/
theorem applyExitStep_t1 (p : OpenPosition) (s : ExitStep)
    (h : p.target_1_hit = true) : (applyExitStep p s).target_1_hit = true := by
  cases s with
  | manage cfg c now =>
    show (manage_exit cfg p c now).2.1.target_1_hit = true
    rw [manage_exit_position_of_t1 cfg p c now h]
    exact h
  | evalx c now fet =>
    show (evaluate_exit p c now fet).2.target_1_hit = true
    rw [evaluate_exit_position_of_t1 p c now fet h]
    exact h

/-- C8: over any sequence of `manage_exit` / `evaluate_exit` calls,
once `target_1_hit` is true it stays true. -/
theorem target_1_hit_monotone (steps : List ExitStep) (p : OpenPosition)
    (h : p.target_1_hit = true) :
    (applyExitSteps steps p).target_1_hit = true := by
  induction steps generalizing p with
  | nil => exact h
  | cons s rest ih =>
    rw [applyExitSteps, List.foldl_cons]
    exact ih (applyExitStep p s) (applyExitStep_t1 p s h)

/-- C8 witness: a concrete two-call sequence on a position whose
target_1 was already hit. -/
theorem target_1_hit_monotone_w :
    (applyExitSteps [ExitStep.manage defaultConfig trailCandle 600,
      ExitStep.evalx trailCandle 600 920] runnerPos).target_1_hit = true :=
  target_1_hit_monotone _ runnerPos rfl

/-- C2 counterexample: on the candle {low 100.0, high 102.5, close
102.2} the position IS fully closed — after the partial booking moves
the stop to breakeven (100.0), the stop-loss layer of the same call
sees low ≤ stop and closes the remainder, so `manage_exit` returns
true, refuting "does not fully close the position". -/
theorem manage_exit_scen_cex :
    (manage_exit defaultConfig (scenPos 10) scenCandle 600).1 = true := by
  unfold manage_exit
  rw [if_neg (by decide : ¬ (defaultConfig.force_exit ≤ 600))]
  rw [if_pos (show (!(scenPos 10).target_1_hit &&
      check_target_1 (scenPos 10) scenCandle) = true by
    simp [scenPos, scenCandle, check_target_1]
    norm_num)]
  have hexec : execT1Exit (scenPos 10) =
      (scenPosAfterT1 10,
       [{ reason := "partial_profit_pivot_hit", qty := some 5 }]) := by
    unfold execT1Exit
    simp [scenPos, scenPosAfterT1]
  rw [hexec]
  rw [if_neg (show ¬ ((scenPosAfterT1 10).quantity = 0) by
    simp [scenPosAfterT1])]
  unfold manage_exit_tail
  rw [if_pos (show check_stop_loss (scenPosAfterT1 10) scenCandle = true by
    simp [scenPosAfterT1, scenCandle, check_stop_loss])]

/-- C2 (amended): for the documented scenario position (any quantity
≥ 2, before 15:00), `manage_exit` books the partial exit of
⌊quantity/2⌋ shares, sets `target_1_hit`, moves the stop to breakeven
100.0 — and then, because the candle low (100.0) touches the new
breakeven stop, the stop-loss layer fires in the same call: the
position is fully closed and `manage_exit` returns true. -/
theorem manage_exit_scen_spec (q now : ℕ) (hq : 2 ≤ q)
    (hnow : now < 900) :
    manage_exit defaultConfig (scenPos q) scenCandle now =
      (true, scenPosAfterT1 q,
       [{ reason := "partial_profit_pivot_hit", qty := some (q / 2) },
        { reason := "stop_loss_hit" }]) ∧ 0 < q / 2 := by
  have hq2 : 0 < q / 2 := by omega
  refine ⟨?_, hq2⟩
  unfold manage_exit
  rw [if_neg (show ¬ (defaultConfig.force_exit ≤ now) by
    show ¬ (920 ≤ now); omega)]
  rw [if_pos (show (!(scenPos q).target_1_hit &&
      check_target_1 (scenPos q) scenCandle) = true by
    simp [scenPos, scenCandle, check_target_1]
    norm_num)]
  have hexec : execT1Exit (scenPos q) =
      (scenPosAfterT1 q,
       [{ reason := "partial_profit_pivot_hit", qty := some (q / 2) }]) := by
    unfold execT1Exit
    simp [scenPos, scenPosAfterT1, hq2]
  rw [hexec]
  rw [if_neg (show ¬ ((scenPosAfterT1 q).quantity = 0) by
    simp [scenPosAfterT1]
    omega)]
  unfold manage_exit_tail
  rw [if_pos (show check_stop_loss (scenPosAfterT1 q) scenCandle = true by
    simp [scenPosAfterT1, scenCandle, check_stop_loss])]
  simp

/-- C2 witness: the amended statement at quantity 10, 10:00. -/
theorem manage_exit_scen_spec_w :
    manage_exit defaultConfig (scenPos 10) scenCandle 600 =
      (true, scenPosAfterT1 10,
       [{ reason := "partial_profit_pivot_hit", qty := some (10 / 2) },
        { reason := "stop_loss_hit" }]) ∧ 0 < 10 / 2 :=
  manage_exit_scen_spec 10 600 (by norm_num) (by norm_num)

/-- The last element of a nonempty constant list. -/
theorem getLast?_replicate_of_ne {α : Type _} (n : ℕ) (a : α) (h : n ≠ 0) :
    (List.replicate n a).getLast? = some a := by
  cases n with
  | zero => exact absurd rfl h
  | succ m =>
    rw [List.replicate_succ']
    simp

/-- C3 counterexample: `evaluate` returns a signal on a bullish
rejection window, and that signal's score is the dataclass default 0,
strictly below the configured minimum `min_sss_score = 4` — refuting
"evaluate never returns a signal whose confluence score is below the
configured minimum". -/
theorem evaluate_unscored_cex :
    StrategyEngine.evaluate defaultConfig "INFY" c3df 600 = some c3sig ∧
    c3sig.score = 0 ∧ c3sig.score < defaultConfig.min_sss_score := by
  refine ⟨?_, rfl, by decide⟩
  unfold StrategyEngine.evaluate
  norm_num [c3df, bearishTrend, bullishTrend, touches_resistance,
    touches_support, isBearishImpulse, isBullishImpulse,
    pullbackShortRejection, pullbackLongRejection, tail3Max, tail3Min,
    c3base, c3last, c3sig, List.map_replicate,
    List.drop_append_of_le_length, List.drop_replicate,
    getLast?_replicate_of_ne, List.replicate_succ, List.foldl_cons,
    List.foldl_nil]

/-- C3 (amended): `StrategyEngine.evaluate` computes no score — every
signal it returns carries the `TradeSignal` dataclass default
`score = 0`, so whenever the configured minimum confluence threshold
is positive (default 4), a returned signal's score is strictly BELOW
the minimum, never at or above it. -/
theorem evaluate_score_default (cfg : TradingConfig) (symbol : String)
    (df : List Bar) (now : ℕ) (s : TradeSignal)
    (h : StrategyEngine.evaluate cfg symbol df now = some s) :
    s.score = 0 ∧
    (0 < cfg.min_sss_score → s.score < cfg.min_sss_score) := by
  have hs : s.score = 0 := by
    simp only [StrategyEngine.evaluate] at h
    split_ifs at h <;>
      first
        | exact Option.noConfusion h
        | (injection h with h; rw [← h])
  exact ⟨hs, fun hmin => by rw [hs]; exact hmin⟩

/-- C3 witness: the amended statement at the concrete bullish
rejection window. -/
theorem evaluate_score_default_w :
    c3sig.score = 0 ∧
    (0 < defaultConfig.min_sss_score →
      c3sig.score < defaultConfig.min_sss_score) :=
  evaluate_score_default defaultConfig "INFY" c3df 600 c3sig
    (by
      unfold StrategyEngine.evaluate
      norm_num [c3df, bearishTrend, bullishTrend, touches_resistance,
        touches_support, isBearishImpulse, isBullishImpulse,
        pullbackShortRejection, pullbackLongRejection, tail3Max, tail3Min,
        c3base, c3last, c3sig, List.map_replicate,
        List.drop_append_of_le_length, List.drop_replicate,
        getLast?_replicate_of_ne, List.replicate_succ, List.foldl_cons,
        List.foldl_nil])

/-- The signal-collection loop of `_scan_and_enter` produces nothing:
the four-argument strategy call raises `TypeError` on every symbol and
the per-symbol handler swallows it. -/
theorem collect_signals_eq_nil (cfg : TradingConfig)
    (risk : DailyRiskState) (openSyms : List String)
    (data : List (String × Df)) (now : Ts) (l : List (String × Df)) :
    collect_signals cfg risk openSyms data now l = [] := by
  induction l with
  | nil => rfl
  | cons hd tl ih =>
    obtain ⟨symbol, df⟩ := hd
    simp only [collect_signals, callStrategyEvaluate4]
    split_ifs <;> try exact ih
    cases df.findIdx? fun r => r.1 = now with
    | none => exact ih
    | some idx =>
      dsimp only
      split_ifs <;> exact ih

/-- C4: `_scan_and_enter` is a no-op for every engine state, data map
and timestamp: each `StrategyEngine.evaluate` call is made with four
arguments against a three-argument signature, the raised `TypeError`
is swallowed by the per-symbol handler, no signal is ever collected,
and the state (open positions, risk state, executor orders, history)
is returned unchanged. -/
theorem scan_and_enter_noop (cfg : TradingConfig) (capital : ℚ)
    (st : BState) (data : List (String × Df)) (now : Ts) :
    scan_and_enter cfg capital st data now = .ok st := by
  unfold scan_and_enter
  split_ifs with h
  · rfl
  · rw [collect_signals_eq_nil]
    rfl

/-- C7 counterexample: the force square-off path evicts a position
whose quantity is 5 — never set to 0 — so the removed position does
not have quantity 0 at the moment of removal. -/
theorem force_close_nonzero_qty_cex :
    (force_close_all c7state (0, 920) []).open_positions = [] ∧
    (force_close_all c7state (0, 920) []).orders =
      [.exitOrd c7pos "force_square_off_1520" (some 100) none] ∧
    c7pos.quantity ≠ 0 := by
  refine ⟨rfl, rfl, by decide⟩

/-- The per-symbol manage step marks a position for removal exactly
when its post-step quantity is 0. -/
theorem manage_one_removed_eq (cfg : TradingConfig)
    (os : List OrderRec) (rk : DailyRiskState) (tr : List TradeRec)
    (symbol : String) (p : OpenPosition) (row : Bar) (now : Ts) :
    (manage_one cfg os rk tr symbol p row now).removed =
      ((manage_one cfg os rk tr symbol p row now).position.quantity == 0) :=
  rfl

/-- The exit-order log produced by the force square-off loop: one
qty-less full exit per open position, carrying the position value
unchanged. -/
theorem force_close_go_orders (data : List (String × Df)) (now : Ts) :
    ∀ (l : List (String × OpenPosition)) (os : List OrderRec)
      (rk : DailyRiskState) (tr : List TradeRec),
      (force_close_go data now l os rk tr).1 = os ++ (l.map fun e =>
        OrderRec.exitOrd e.2 "force_square_off_1520"
          (some ((dataRow data e.1 now).elim e.2.entry Bar.close)) none) := by
  intro l
  induction l with
  | nil => intro os rk tr; simp [force_close_go]
  | cons hd tl ih =>
    intro os rk tr
    obtain ⟨symbol, p⟩ := hd
    simp only [force_close_go]
    rw [ih]
    simp

/-- C7 (amended): on the `_manage_positions` path every evicted
position has quantity 0 at the moment of removal (removal happens in
the same step quantity reaches 0); but on the force-square-off path
every open position is evicted with its quantity left unchanged — the
exit orders carry the original position values, whose quantity need
not be 0. -/
theorem eviction_quantity_spec :
    (∀ (cfg : TradingConfig) (data : List (String × Df)) (now : Ts)
      (l : List (String × OpenPosition)) (os : List OrderRec)
      (rk : DailyRiskState) (tr : List TradeRec),
      ((manage_positions_go cfg data now l os rk tr).removed.all
        fun e => e.2.quantity == 0) = true) ∧
    (∀ (st : BState) (now : Ts) (data : List (String × Df)),
      (force_close_all st now data).open_positions = [] ∧
      (force_close_all st now data).orders = st.orders ++
        (st.open_positions.map fun e =>
          OrderRec.exitOrd e.2 "force_square_off_1520"
            (some ((dataRow data e.1 now).elim e.2.entry Bar.close)) none)) := by
  constructor
  · intro cfg data now l
    induction l with
    | nil => intro os rk tr; rfl
    | cons hd tl ih =>
      intro os rk tr
      obtain ⟨symbol, p⟩ := hd
      simp only [manage_positions_go]
      cases hrow : dataRow data symbol now with
      | none => exact ih os rk tr
      | some row =>
        dsimp only
        by_cases hrem : (manage_one cfg os rk tr symbol p row now).removed
        · rw [if_pos hrem]
          simp only [List.all_cons, Bool.and_eq_true]
          refine ⟨?_, ih _ _ _⟩
          rw [manage_one_removed_eq] at hrem
          exact hrem
        · rw [if_neg hrem]
          exact ih _ _ _
  · intro st now data
    exact ⟨rfl, force_close_go_orders data now st.open_positions
      st.orders st.risk st.trades⟩

/-- The indicator pre-computation fails with `TypeError` as soon as it
meets a non-empty series (the `add_indicators` call carries the
`atr_period` keyword the signature does not accept). -/
theorem precompute_error_of_nonempty (cfg : TradingConfig) :
    ∀ dm : List (String × Df), (∃ e ∈ dm, e.2 ≠ []) →
      precompute cfg dm = .error .typeError := by
  intro dm
  induction dm with
  | nil => rintro ⟨e, he, _⟩; exact absurd he (List.not_mem_nil e)
  | cons hd tl ih =>
    rintro ⟨e, he, hne⟩
    obtain ⟨symbol, df⟩ := hd
    cases hdf : df with
    | nil =>
      subst hdf
      simp only [precompute]
      apply ih
      rcases List.mem_cons.mp he with h | h
      · exact absurd (congrArg Prod.snd h) (by simpa using hne)
      · exact ⟨e, h, hne⟩
    | cons r rest =>
      obtain ⟨t, b⟩ := r
      rfl

/-- The pre-computation succeeds (vacuously) when every series is
empty. -/
theorem precompute_ok_of_all_empty (cfg : TradingConfig) :
    ∀ dm : List (String × Df), (∀ e ∈ dm, e.2 = []) →
      precompute cfg dm = .ok [] := by
  intro dm
  induction dm with
  | nil => intro _; rfl
  | cons hd tl ih =>
    intro h
    obtain ⟨symbol, df⟩ := hd
    have hdf : df = [] := h (symbol, df) (List.mem_cons_self _ _)
    subst hdf
    simp only [precompute]
    exact ih fun e he => h e (List.mem_cons_of_mem _ he)

/-- The timestamp union of all-empty series is empty. -/
theorem unionTimestamps_of_all_empty :
    ∀ dm : List (String × Df), (∀ e ∈ dm, e.2 = []) →
      unionTimestamps dm = [] := by
  have hfold : ∀ (dm : List (String × Df)) (acc : List Ts),
      (∀ e ∈ dm, e.2 = []) →
      dm.foldl (fun acc e => acc ++ e.2.map Prod.fst) acc = acc := by
    intro dm
    induction dm with
    | nil => intro acc _; rfl
    | cons hd tl ih =>
      intro acc h
      obtain ⟨symbol, df⟩ := hd
      have hdf : df = [] := h (symbol, df) (List.mem_cons_self _ _)
      subst hdf
      simp only [List.foldl_cons, List.map_nil, List.append_nil]
      exact ih acc fun e he => h e (List.mem_cons_of_mem _ he)
  intro dm h
  unfold unionTimestamps
  rw [hfold dm [] h]
  rfl

/-- C1: `BacktestEngine.run` raises `TypeError` during indicator
pre-computation — before any timestamp is processed, producing no
`BacktestResult` — whenever some series in the data map is non-empty;
it returns normally (the empty default `BacktestResult`) when every
series is empty. -/
theorem run_fails_unless_empty (cfg : TradingConfig) (capital : ℚ)
    (dm : List (String × Df)) :
    ((∃ e ∈ dm, e.2 ≠ []) →
      BacktestEngine.run cfg capital dm = .error .typeError) ∧
    ((∀ e ∈ dm, e.2 = []) →
      BacktestEngine.run cfg capital dm = .ok {}) := by
  constructor
  · intro h
    unfold BacktestEngine.run
    rw [precompute_error_of_nonempty cfg dm h]
    rfl
  · intro h
    unfold BacktestEngine.run
    rw [precompute_ok_of_all_empty cfg dm h,
        unionTimestamps_of_all_empty dm h]
    rfl

/-- C1 witness: a data map with one non-empty series makes `run`
raise; an all-empty data map returns the empty result. -/
theorem run_fails_unless_empty_w :
    BacktestEngine.run defaultConfig 100000 dmOneBar =
      .error .typeError ∧
    BacktestEngine.run defaultConfig 100000 dmAllEmpty = .ok {} := by
  constructor
  · exact (run_fails_unless_empty defaultConfig 100000 dmOneBar).1
      ⟨("INFY", [((0, 600), c3base)]), by simp [dmOneBar], by simp⟩
  · exact (run_fails_unless_empty defaultConfig 100000 dmAllEmpty).2
      (by intro e he; simp [dmAllEmpty] at he; rcases he with h | h <;>
        simp [h])
